import Mathlib

/-!
Shallow embedding of `src/include/util_ros_cam.h`: the single header of
the repository, declaring the utility class `GazeboRosCameraUtils`
which bridges a Gazebo camera sensor plugin to ROS 2 topics.

The header contains declarations only (no function bodies), so the
development has two layers:

* a declaration-level model transcribing, in source order, the header's
  top-level declarations and the class's members: field names and
  types, method names, return types, parameters and default arguments;
* a behavioural model of the class's operations.  The bodies are not
  part of the repository, so each operation is modelled from the
  specification's description of the class (connect/disconnect
  reference counting of subscribers with activation state saved and
  resumed, forwarding of field-of-view and update-rate configuration
  messages into the sensor object, deferred initialisation on a
  background thread, topics created with the sensor-data QoS profile);
  the doc comment of each such definition says so explicitly.
-/

namespace UtilRosCam

/-! ## Declaration-level model of the header -/

/-- Return types appearing on the declared methods of
`GazeboRosCameraUtils`.  `messageT` is listed because the claim set
speaks of methods returning a message; no method of this class does. -/
inductive RetTy where
  | voidT
  | connectionPtrT
  | messageT
  deriving DecidableEq

/-- Parameter types appearing on the declared methods. -/
inductive ParamTy where
  | sensorPtrT
  | elementPtrT
  | stringRefT
  | doubleT
  | boostFunctionT
  | ucharPtrT
  | timeRefT
  | float64SharedPtrT
  | cameraInfoPubT
  deriving DecidableEq

/-- One declared method parameter: its name, type and default argument
(`some v` when the declaration carries the default value `v`). -/
structure ParamDecl where
  name : String
  ty : ParamTy
  dflt : Option String
  deriving DecidableEq

/-- One declared method: name, return type and parameter list. -/
structure MethodDecl where
  name : String
  ret : RetTy
  params : List ParamDecl
  deriving DecidableEq

/-- Types of the data members of `GazeboRosCameraUtils`. -/
inductive CppTy where
  | sharedPtrIntT
  | sharedPtrMutexT
  | sharedPtrBoolT
  | sharedPtrNodeT
  | imageTransportPublisherT
  | sharedPtrImageTransportT
  | rmwQosProfileT
  | imageMsgT
  | stringT
  | cameraInfoPublisherT
  | timeT
  | doubleT
  | mutexT
  | intT
  | callbackGroupT
  | executorT
  | boostThreadT
  | uintT
  | sensorPtrT
  | cameraPtrT
  | worldPtrT
  | connectionPtrT
  | elementPtrT
  | eventT
  | boolT
  deriving DecidableEq

/-- One declared data member: its name and type. -/
structure FieldDecl where
  name : String
  ty : CppTy
  deriving DecidableEq

/-- The three-argument `Load` overload
(`util_ros_cam.h`, lines 64-66): the `_camera_name_suffix` parameter
carries the default argument `""`. -/
def loadDecl3 : MethodDecl :=
  ⟨"Load", RetTy.voidT,
    [⟨"_parent", ParamTy.sensorPtrT, none⟩,
     ⟨"_sdf", ParamTy.elementPtrT, none⟩,
     ⟨"_camera_name_suffix", ParamTy.stringRefT, some ""⟩]⟩

/-- The four-argument `Load` overload
(`util_ros_cam.h`, lines 73-75): no parameter has a default. -/
def loadDecl4 : MethodDecl :=
  ⟨"Load", RetTy.voidT,
    [⟨"_parent", ParamTy.sensorPtrT, none⟩,
     ⟨"_sdf", ParamTy.elementPtrT, none⟩,
     ⟨"_camera_name_suffix", ParamTy.stringRefT, none⟩,
     ⟨"_hack_baseline", ParamTy.doubleT, none⟩]⟩

/-- All member functions declared by `GazeboRosCameraUtils`, in source
order.  The constructor and destructor are also declared; C++ gives
them no return type, so they do not appear in this list of
value-returning operations. -/
def methods : List MethodDecl :=
  [loadDecl3,
   loadDecl4,
   ⟨"OnLoad", RetTy.connectionPtrT, [⟨"", ParamTy.boostFunctionT, none⟩]⟩,
   ⟨"Init", RetTy.voidT, []⟩,
   ⟨"PutCameraData", RetTy.voidT, [⟨"_src", ParamTy.ucharPtrT, none⟩]⟩,
   ⟨"PutCameraData", RetTy.voidT,
     [⟨"_src", ParamTy.ucharPtrT, none⟩,
      ⟨"last_update_time", ParamTy.timeRefT, none⟩]⟩,
   ⟨"ImageConnect", RetTy.voidT, []⟩,
   ⟨"ImageDisconnect", RetTy.voidT, []⟩,
   ⟨"SetHFOV", RetTy.voidT, [⟨"hfov", ParamTy.float64SharedPtrT, none⟩]⟩,
   ⟨"SetUpdateRate", RetTy.voidT,
     [⟨"update_rate", ParamTy.float64SharedPtrT, none⟩]⟩,
   ⟨"PublishCameraInfo", RetTy.voidT,
     [⟨"camera_info_pub_", ParamTy.cameraInfoPubT, none⟩]⟩,
   ⟨"PublishCameraInfo", RetTy.voidT,
     [⟨"last_update_time", ParamTy.timeRefT, none⟩]⟩,
   ⟨"PublishCameraInfo", RetTy.voidT, []⟩,
   ⟨"InfoConnect", RetTy.voidT, []⟩,
   ⟨"InfoDisconnect", RetTy.voidT, []⟩,
   ⟨"CameraQueueThread", RetTy.voidT, []⟩,
   ⟨"LoadThread", RetTy.voidT, []⟩]

/-- All data members declared by `GazeboRosCameraUtils`, in source
order (`util_ros_cam.h`, lines 87-190). -/
def fields : List FieldDecl :=
  [⟨"image_connect_count_", CppTy.sharedPtrIntT⟩,
   ⟨"image_connect_count_lock_", CppTy.sharedPtrMutexT⟩,
   ⟨"was_active_", CppTy.sharedPtrBoolT⟩,
   ⟨"node_handle_", CppTy.sharedPtrNodeT⟩,
   ⟨"image_pub_", CppTy.imageTransportPublisherT⟩,
   ⟨"itnode_", CppTy.sharedPtrImageTransportT⟩,
   ⟨"qos_profile", CppTy.rmwQosProfileT⟩,
   ⟨"image_msg_", CppTy.imageMsgT⟩,
   ⟨"robot_namespace_", CppTy.stringT⟩,
   ⟨"camera_name_", CppTy.stringT⟩,
   ⟨"image_topic_name_", CppTy.stringT⟩,
   ⟨"camera_info_pub_", CppTy.cameraInfoPublisherT⟩,
   ⟨"camera_info_topic_name_", CppTy.stringT⟩,
   ⟨"last_info_update_time_", CppTy.timeT⟩,
   ⟨"frame_name_", CppTy.stringT⟩,
   ⟨"update_rate_", CppTy.doubleT⟩,
   ⟨"update_period_", CppTy.doubleT⟩,
   ⟨"last_update_time_", CppTy.timeT⟩,
   ⟨"cx_prime_", CppTy.doubleT⟩,
   ⟨"cx_", CppTy.doubleT⟩,
   ⟨"cy_", CppTy.doubleT⟩,
   ⟨"focal_length_", CppTy.doubleT⟩,
   ⟨"hack_baseline_", CppTy.doubleT⟩,
   ⟨"distortion_k1_", CppTy.doubleT⟩,
   ⟨"distortion_k2_", CppTy.doubleT⟩,
   ⟨"distortion_k3_", CppTy.doubleT⟩,
   ⟨"distortion_t1_", CppTy.doubleT⟩,
   ⟨"distortion_t2_", CppTy.doubleT⟩,
   ⟨"lock_", CppTy.mutexT⟩,
   ⟨"type_", CppTy.stringT⟩,
   ⟨"skip_", CppTy.intT⟩,
   ⟨"camera_queue_", CppTy.callbackGroupT⟩,
   ⟨"executor", CppTy.executorT⟩,
   ⟨"callback_queue_thread_", CppTy.boostThreadT⟩,
   ⟨"width_", CppTy.uintT⟩,
   ⟨"height_", CppTy.uintT⟩,
   ⟨"depth_", CppTy.uintT⟩,
   ⟨"format_", CppTy.stringT⟩,
   ⟨"parentSensor_", CppTy.sensorPtrT⟩,
   ⟨"camera_", CppTy.cameraPtrT⟩,
   ⟨"world_", CppTy.worldPtrT⟩,
   ⟨"newFrameConnection_", CppTy.connectionPtrT⟩,
   ⟨"sensor_update_time_", CppTy.timeT⟩,
   ⟨"world", CppTy.worldPtrT⟩,
   ⟨"sdf", CppTy.elementPtrT⟩,
   ⟨"deferred_load_thread_", CppTy.boostThreadT⟩,
   ⟨"load_event_", CppTy.eventT⟩,
   ⟨"initialized_", CppTy.boolT⟩]

/-- Top-level declarations of the header inside namespace `gazebo`:
a forward declaration of a class, or a full class definition. -/
inductive HeaderDecl where
  | forwardClassDecl (name : String)
  | classDef (name : String)
  deriving DecidableEq

/-- The header's top-level declarations in source order: the forward
declaration of `GazeboRosMultiCamera` (line 50, also a `friend`) and
the definition of `GazeboRosCameraUtils` (lines 51-193). -/
def headerDecls : List HeaderDecl :=
  [HeaderDecl.forwardClassDecl "GazeboRosMultiCamera",
   HeaderDecl.classDef "GazeboRosCameraUtils"]

/-- Whether a top-level declaration is a class definition. -/
def HeaderDecl.isClassDef : HeaderDecl → Bool
  | HeaderDecl.classDef _ => true
  | HeaderDecl.forwardClassDecl _ => false

/-! ## Behavioural model

The header carries no function bodies, so the operations below are
modelled from the specification (and from the header's own doc
comments, which are part of the source).  Doubles are only ever copied
by this class, never computed with, so the payload of a `Float64`
message and the double-valued sensor settings are modelled as
rationals. -/

/-- A middleware `std_msgs::msg::Float64` message: a single double
payload (modelled as a rational, since the class only copies it). -/
structure Float64 where
  data : Rat
  deriving DecidableEq

/-- Quality-of-service profiles visible to this class. -/
inductive QosProfile where
  | sensorData
  | systemDefault
  deriving DecidableEq

/-- A middleware topic created by the class: its name and the QoS
profile it was created with. -/
structure Topic where
  name : String
  qos : QosProfile
  deriving DecidableEq

/-- Modelled from the spec: the simulator's sensor/camera object the
class forwards configuration into (`camera_` / `parentSensor_`; their
classes live in the external simulator, not in this repository).  It
carries the horizontal field of view, the update rate, the activation
flag toggled by `SetActive`/read by `IsActive`, and other
configuration fields the class never writes through its
configuration-change handlers. -/
structure CameraSensor where
  hfov : Rat
  updateRate : Rat
  active : Bool
  imageWidth : Nat
  imageHeight : Nat
  imageFormat : String
  deriving DecidableEq

/-- The mutable state of one `GazeboRosCameraUtils` instance together
with its attached sensor.  Field names follow the header.  `loaded`
and `loadThreadDone` are bookkeeping for the deferred-load protocol:
whether `Load` has been called and whether `LoadThread` has run to
completion.  Pointers (`world_`, `world`) are modelled as optional
numeric identities. -/
structure CamState where
  image_connect_count_ : Int
  was_active_ : Bool
  sensor : CameraSensor
  qos_profile : QosProfile
  topics : List Topic
  loaded : Bool
  loadThreadDone : Bool
  initialized_ : Bool
  world_ : Option Nat
  world : Option Nat
  deriving DecidableEq

/-- Modelled from the spec: the state after construction (the body of
the constructor is not in the repository).  The subscriber count
starts at zero, no camera was recorded active, nothing is loaded or
initialised, no topic exists yet, and `qos_profile` carries the
in-class initializer `rmw_qos_profile_sensor_data` of
`util_ros_cam.h` line 107.  The attached sensor is whatever the
simulator provides. -/
def initState (c : CameraSensor) : CamState :=
  ⟨0, false, c, QosProfile.sensorData, [], false, false, false, none, none⟩

/-- A concrete sensor used to instantiate theorems. -/
def sensor0 : CameraSensor := ⟨0, 0, false, 0, 0, ""⟩

/-- Modelled from the spec: the body of `ImageConnect` is not in the
repository.  Per the spec's subscription-driven activation and the
header's comment on `was_active_` (lines 93-95: remember on
subscription whether the camera was already active), a new subscriber
first records, when it is the first one, whether the camera was
already active, then increments `image_connect_count_` and activates
the camera. -/
def ImageConnect (s : CamState) : CamState :=
  { s with
    was_active_ :=
      if s.image_connect_count_ = 0 then s.sensor.active else s.was_active_,
    image_connect_count_ := s.image_connect_count_ + 1,
    sensor := { s.sensor with active := true } }

/-- Modelled from the spec: the body of `ImageDisconnect` is not in
the repository.  Per the spec's reference counting and the header's
comment on `was_active_` (resume state when unsubscribed), a
departing subscriber decrements `image_connect_count_`, and when no
subscriber remains the camera's activation state is resumed from
`was_active_`. -/
def ImageDisconnect (s : CamState) : CamState :=
  { s with
    image_connect_count_ := s.image_connect_count_ - 1,
    sensor :=
      if s.image_connect_count_ - 1 ≤ 0 then
        { s.sensor with active := s.was_active_ }
      else s.sensor }

/-- Modelled from the spec: the body of `SetHFOV` is not in the
repository.  Per the spec, configuration changes are forwarded from
middleware messages into the simulator's sensor object: the handler
sets the camera's horizontal field of view to the message value. -/
def SetHFOV (hfov : Float64) (s : CamState) : CamState :=
  { s with sensor := { s.sensor with hfov := hfov.data } }

/-- Modelled from the spec: the body of `SetUpdateRate` is not in the
repository.  Per the spec, the handler sets the sensor's update rate
to the message value. -/
def SetUpdateRate (update_rate : Float64) (s : CamState) : CamState :=
  { s with sensor := { s.sensor with updateRate := update_rate.data } }

/-- Modelled from the spec: the body of `Load` is not in the
repository.  Per the spec, `Load` only records what later steps need
and defers initialisation to the background thread; it stores the
world pointer, mirrored into the deprecated `world` field kept "for
one more release for backwards compatibility" (header lines 180-181).
It does not set `initialized_`. -/
def Load (w : Nat) (s : CamState) : CamState :=
  { s with loaded := true, world_ := some w, world := some w }

/-- Modelled from the spec: the body of `LoadThread` is not in the
repository.  Per the spec, the deferred-initialisation thread creates
the class's topics (image, camera-info, and the two float64
configuration topics) with the class's QoS profile once the
middleware is ready, and only then is the class initialised
(`initialized_` becomes true). -/
def LoadThread (s : CamState) : CamState :=
  { s with
    loadThreadDone := true,
    initialized_ := true,
    topics := s.topics ++
      [⟨"image_raw", s.qos_profile⟩,
       ⟨"camera_info", s.qos_profile⟩,
       ⟨"set_hfov", s.qos_profile⟩,
       ⟨"set_update_rate", s.qos_profile⟩] }

/-- The operations of the class an external caller (the middleware or
the simulator host) can invoke on a state. -/
inductive Event where
  | imageConnect
  | imageDisconnect
  | setHFOV (msg : Float64)
  | setUpdateRate (msg : Float64)
  | load (w : Nat)
  | loadThread
  | publishCameraInfo
  | putCameraData
  deriving DecidableEq

/-- Dispatch one event to the corresponding operation.
`PublishCameraInfo` and `PutCameraData` build and publish messages
from the current state and leave the state of this model unchanged. -/
def step : Event → CamState → CamState
  | Event.imageConnect, s => ImageConnect s
  | Event.imageDisconnect, s => ImageDisconnect s
  | Event.setHFOV msg, s => SetHFOV msg s
  | Event.setUpdateRate msg, s => SetUpdateRate msg s
  | Event.load w, s => Load w s
  | Event.loadThread, s => LoadThread s
  | Event.publishCameraInfo, s => s
  | Event.putCameraData, s => s

/-- Run a sequence of events from a state. -/
def runEvents : List Event → CamState → CamState
  | [], s => s
  | e :: rest, s => runEvents rest (step e s)

/-- Number of `imageConnect` events in a sequence. -/
def nConn : List Event → Nat
  | [] => 0
  | Event.imageConnect :: r => nConn r + 1
  | _ :: r => nConn r

/-- Number of `imageDisconnect` events in a sequence. -/
def nDisc : List Event → Nat
  | [] => 0
  | Event.imageDisconnect :: r => nDisc r + 1
  | _ :: r => nDisc r

/-- `balCheck c evs` checks that, starting from a connection count of
`c`, no prefix of `evs` drives the count below zero: every disconnect
is matched by an earlier connect. -/
def balCheck : Int → List Event → Bool
  | _, [] => true
  | c, Event.imageConnect :: r => balCheck (c + 1) r
  | c, Event.imageDisconnect :: r => decide (0 ≤ c - 1) && balCheck (c - 1) r
  | c, _ :: r => balCheck c r

/-! ## Helper lemmas -/

/-- Starting from a non-negative connection count, a sequence of
events passing `balCheck` keeps the count non-negative along every
prefix of the run. -/
lemma run_nonneg (evs : List Event) (s : CamState)
    (h0 : 0 ≤ s.image_connect_count_)
    (hbal : balCheck s.image_connect_count_ evs = true) :
    ∀ n : Nat, 0 ≤ (runEvents (evs.take n) s).image_connect_count_ := by
  induction evs generalizing s with
  | nil =>
    intro n
    simpa [List.take_nil, runEvents] using h0
  | cons e r ih =>
    intro n
    cases n with
    | zero => simpa [runEvents] using h0
    | succ m =>
      rw [List.take_succ_cons]
      show 0 ≤ (runEvents (r.take m) (step e s)).image_connect_count_
      cases e with
      | imageConnect =>
        refine ih (step Event.imageConnect s) ?_ ?_ m
        · show 0 ≤ s.image_connect_count_ + 1
          omega
        · show balCheck (s.image_connect_count_ + 1) r = true
          simpa [balCheck] using hbal
      | imageDisconnect =>
        have hb : (decide (0 ≤ s.image_connect_count_ - 1) &&
            balCheck (s.image_connect_count_ - 1) r) = true := by
          simpa [balCheck] using hbal
        rw [Bool.and_eq_true, decide_eq_true_eq] at hb
        refine ih (step Event.imageDisconnect s) ?_ ?_ m
        · show 0 ≤ s.image_connect_count_ - 1
          exact hb.1
        · show balCheck (s.image_connect_count_ - 1) r = true
          exact hb.2
      | setHFOV msg =>
        exact ih (step (Event.setHFOV msg) s) h0 (by simpa [balCheck] using hbal) m
      | setUpdateRate msg =>
        exact ih (step (Event.setUpdateRate msg) s) h0
          (by simpa [balCheck] using hbal) m
      | load w =>
        exact ih (step (Event.load w) s) h0 (by simpa [balCheck] using hbal) m
      | loadThread =>
        exact ih (step Event.loadThread s) h0 (by simpa [balCheck] using hbal) m
      | publishCameraInfo =>
        exact ih (step Event.publishCameraInfo s) h0
          (by simpa [balCheck] using hbal) m
      | putCameraData =>
        exact ih (step Event.putCameraData s) h0 (by simpa [balCheck] using hbal) m

/-- `initialized_` can only be true once `LoadThread` has completed:
the implication is preserved by every event. -/
lemma init_imp_done (evs : List Event) (s : CamState)
    (h : s.initialized_ = true → s.loadThreadDone = true) :
    (runEvents evs s).initialized_ = true →
    (runEvents evs s).loadThreadDone = true := by
  induction evs generalizing s with
  | nil => exact h
  | cons e r ih =>
    refine ih (step e s) ?_
    cases e with
    | imageConnect => exact h
    | imageDisconnect => exact h
    | setHFOV msg => exact h
    | setUpdateRate msg => exact h
    | load w => exact h
    | loadThread => intro _; rfl
    | publishCameraInfo => exact h
    | putCameraData => exact h

/-- The QoS profile stays `sensorData`, and every topic ever created
carries the `sensorData` profile, along any run. -/
lemma qos_run (evs : List Event) (s : CamState)
    (hq : s.qos_profile = QosProfile.sensorData)
    (ht : ∀ t ∈ s.topics, t.qos = QosProfile.sensorData) :
    (runEvents evs s).qos_profile = QosProfile.sensorData ∧
    ∀ t ∈ (runEvents evs s).topics, t.qos = QosProfile.sensorData := by
  induction evs generalizing s with
  | nil => exact ⟨hq, ht⟩
  | cons e r ih =>
    refine ih (step e s) ?_ ?_
    · cases e <;> exact hq
    · intro t htm
      cases e with
      | imageConnect => exact ht t htm
      | imageDisconnect => exact ht t htm
      | setHFOV msg => exact ht t htm
      | setUpdateRate msg => exact ht t htm
      | load w => exact ht t htm
      | loadThread =>
        have htm2 : t ∈ s.topics ∨ t = ⟨"image_raw", s.qos_profile⟩ ∨
            t = ⟨"camera_info", s.qos_profile⟩ ∨
            t = ⟨"set_hfov", s.qos_profile⟩ ∨
            t = ⟨"set_update_rate", s.qos_profile⟩ := by
          simpa [step, LoadThread, List.mem_append] using htm
        rcases htm2 with h | h | h | h | h
        · exact ht t h
        all_goals simp [h, hq]
      | publishCameraInfo => exact ht t htm
      | putCameraData => exact ht t htm

/-! ## Model of C++ default-argument call semantics for `Load` -/

/-- The argument tuple a call of the three-argument `Load` overload
binds (parent sensor and SDF element modelled as identities). -/
structure LoadArgs where
  parent : Nat
  sdfEl : Nat
  suffix : String
  deriving DecidableEq

/-- A fully explicit call of the three-argument `Load` overload. -/
def LoadCall3 (parent sdfEl : Nat) (suffix : String) : LoadArgs :=
  ⟨parent, sdfEl, suffix⟩

/-- A call of the three-argument `Load` overload that omits the
suffix: C++ substitutes the default argument `""` declared at
`util_ros_cam.h` line 66. -/
def LoadCall2 (parent sdfEl : Nat) : LoadArgs :=
  LoadCall3 parent sdfEl ""

/-! ## Claim theorems -/

/-- C1, as stated, is false: the claim quantifies over ANY sequence of
`ImageConnect`/`ImageDisconnect` calls from initialization, but a
sequence beginning with `ImageDisconnect` drives
`image_connect_count_` to `-1` (decrement of a plain counter), so the
count is not non-negative in every reachable state. -/
theorem c1_counterexample :
    ¬ ∀ (c : CameraSensor) (evs : List Event),
        (∀ e ∈ evs, e = Event.imageConnect ∨ e = Event.imageDisconnect) →
        0 ≤ (runEvents evs (initState c)).image_connect_count_ :=
  fun h =>
    absurd (h sensor0 [Event.imageDisconnect] (by decide)) (by decide)

/-- C1 (amended): every `ImageConnect` increments
`image_connect_count_` by exactly one and every `ImageDisconnect`
decrements it by exactly one; and along any call sequence in which no
prefix contains more disconnects than connects (the discipline the
middleware's per-subscriber callbacks guarantee, checked by
`balCheck`), every reachable state has a non-negative count. -/
theorem c1_refcount_amended (evs : List Event)
    (hbal : balCheck 0 evs = true) :
    (∀ s : CamState,
      (ImageConnect s).image_connect_count_ = s.image_connect_count_ + 1) ∧
    (∀ s : CamState,
      (ImageDisconnect s).image_connect_count_ = s.image_connect_count_ - 1) ∧
    ∀ (c : CameraSensor) (n : Nat),
      0 ≤ (runEvents (evs.take n) (initState c)).image_connect_count_ := by
  refine ⟨fun s => rfl, fun s => rfl, fun c n => ?_⟩
  exact run_nonneg evs (initState c) (by simp [initState]) hbal n

/-- C1 witness: the balanced sequence connect-then-disconnect keeps
the count non-negative at every prefix. -/
theorem c1_refcount_amended_witness :
    balCheck 0 [Event.imageConnect, Event.imageDisconnect] = true ∧
    0 ≤ (runEvents ([Event.imageConnect, Event.imageDisconnect].take 2)
          (initState sensor0)).image_connect_count_ :=
  ⟨by decide,
   (c1_refcount_amended [Event.imageConnect, Event.imageDisconnect]
      (by decide)).2.2 sensor0 2⟩

/-- C2: the class declares exactly two configuration-change handlers
taking a middleware Float64 message, `SetHFOV` and `SetUpdateRate`;
applying `SetHFOV` sets the camera's horizontal field of view to the
message value and applying `SetUpdateRate` sets the sensor's update
rate to the message value, each leaving the other configuration
fields unchanged. -/
theorem c2_config_handlers :
    ((methods.filter fun m =>
        m.params.any fun p => decide (p.ty = ParamTy.float64SharedPtrT)).map
      MethodDecl.name = ["SetHFOV", "SetUpdateRate"]) ∧
    (∀ (msg : Float64) (s : CamState),
      (SetHFOV msg s).sensor.hfov = msg.data ∧
      (SetHFOV msg s).sensor.updateRate = s.sensor.updateRate ∧
      (SetHFOV msg s).sensor.imageWidth = s.sensor.imageWidth ∧
      (SetHFOV msg s).sensor.imageHeight = s.sensor.imageHeight ∧
      (SetHFOV msg s).sensor.imageFormat = s.sensor.imageFormat ∧
      (SetHFOV msg s).sensor.active = s.sensor.active) ∧
    (∀ (msg : Float64) (s : CamState),
      (SetUpdateRate msg s).sensor.updateRate = msg.data ∧
      (SetUpdateRate msg s).sensor.hfov = s.sensor.hfov ∧
      (SetUpdateRate msg s).sensor.imageWidth = s.sensor.imageWidth ∧
      (SetUpdateRate msg s).sensor.imageHeight = s.sensor.imageHeight ∧
      (SetUpdateRate msg s).sensor.imageFormat = s.sensor.imageFormat ∧
      (SetUpdateRate msg s).sensor.active = s.sensor.active) :=
  ⟨by decide,
   fun msg s => ⟨rfl, rfl, rfl, rfl, rfl, rfl⟩,
   fun msg s => ⟨rfl, rfl, rfl, rfl, rfl, rfl⟩⟩

/-- C3, as stated, is false: `deferred_load_thread_` is not the only
`boost::thread` member the class declares — the member list of
`util_ros_cam.h` also contains `callback_queue_thread_` (line 163),
so the list of thread members is not `[deferred_load_thread_]`. -/
theorem c3_counterexample :
    ¬ ((fields.filter fun f => decide (f.ty = CppTy.boostThreadT)).map
        FieldDecl.name = ["deferred_load_thread_"]) := by decide

/-- C3 (amended): the class creates and manages exactly two background
threads, `callback_queue_thread_` (running `CameraQueueThread`, which
services the middleware callback queue) and `deferred_load_thread_`
(running `LoadThread`, the deferred initialisation). -/
theorem c3_threads_amended :
    ((fields.filter fun f => decide (f.ty = CppTy.boostThreadT)).map
      FieldDecl.name = ["callback_queue_thread_", "deferred_load_thread_"]) ∧
    "CameraQueueThread" ∈ methods.map MethodDecl.name ∧
    "LoadThread" ∈ methods.map MethodDecl.name := by decide

/-- C4: `Load` does not complete initialisation synchronously
(immediately after `Load` from a freshly constructed state,
`initialized_` is still false), and in every reachable state
`initialized_` is true only after the deferred `LoadThread` has
completed. -/
theorem c4_deferred_init :
    (∀ (w : Nat) (c : CameraSensor),
      (Load w (initState c)).initialized_ = false) ∧
    ∀ (evs : List Event) (c : CameraSensor),
      (runEvents evs (initState c)).initialized_ = true →
      (runEvents evs (initState c)).loadThreadDone = true := by
  refine ⟨fun w c => rfl, fun evs c => ?_⟩
  exact init_imp_done evs (initState c) (by intro h; cases h)

/-- C4 witness: after `Load` followed by the completed `LoadThread`,
`initialized_` is true and so is `loadThreadDone`. -/
theorem c4_deferred_init_witness :
    (runEvents [Event.load 0, Event.loadThread]
      (initState sensor0)).initialized_ = true ∧
    (runEvents [Event.load 0, Event.loadThread]
      (initState sensor0)).loadThreadDone = true :=
  ⟨by decide,
   c4_deferred_init.2 [Event.load 0, Event.loadThread] sensor0 (by decide)⟩

/-- C5: the class declares the `qos_profile` field, the field equals
the sensor-data profile from construction onward in every reachable
state, and every topic the class creates carries the sensor-data
profile. -/
theorem c5_sensor_data_qos :
    ("qos_profile" ∈ fields.map FieldDecl.name) ∧
    ∀ (evs : List Event) (c : CameraSensor),
      (runEvents evs (initState c)).qos_profile = QosProfile.sensorData ∧
      ∀ t ∈ (runEvents evs (initState c)).topics,
        t.qos = QosProfile.sensorData := by
  refine ⟨by decide, fun evs c => ?_⟩
  exact qos_run evs (initState c) rfl (by intro t ht; cases ht)

/-- C5 witness: after `Load` and `LoadThread`, the image topic exists
and its QoS is the sensor-data profile. -/
theorem c5_sensor_data_qos_witness :
    (⟨"image_raw", QosProfile.sensorData⟩ : Topic) ∈
      (runEvents [Event.load 0, Event.loadThread]
        (initState sensor0)).topics ∧
    (⟨"image_raw", QosProfile.sensorData⟩ : Topic).qos =
      QosProfile.sensorData :=
  ⟨by decide,
   (c5_sensor_data_qos.2 [Event.load 0, Event.loadThread] sensor0).2
     ⟨"image_raw", QosProfile.sensorData⟩ (by decide)⟩

/-- C6: no declared operation of `GazeboRosCameraUtils` returns an
error or status value: every declared method returns void, a
connection handle, or a message. -/
theorem c6_no_error_returns :
    ∀ m ∈ methods,
      m.ret = RetTy.voidT ∨ m.ret = RetTy.connectionPtrT ∨
      m.ret = RetTy.messageT := by decide

/-- C6 witness: the three-argument `Load` overload is a declared
method and returns void. -/
theorem c6_no_error_returns_witness :
    loadDecl3.ret = RetTy.voidT ∨ loadDecl3.ret = RetTy.connectionPtrT ∨
    loadDecl3.ret = RetTy.messageT :=
  c6_no_error_returns loadDecl3 (by decide)

/-- C7: the header defines exactly one class, `GazeboRosCameraUtils`
(the only other top-level declaration is a forward declaration, not a
definition), and that class bridges the simulator's plugin interface
(`Load`, `PutCameraData`) to the middleware's topics (`image_pub_`,
`camera_info_pub_`, and the Float64 subscription handlers `SetHFOV`
and `SetUpdateRate`). -/
theorem c7_single_class :
    (headerDecls.filter HeaderDecl.isClassDef =
      [HeaderDecl.classDef "GazeboRosCameraUtils"]) ∧
    "Load" ∈ methods.map MethodDecl.name ∧
    "PutCameraData" ∈ methods.map MethodDecl.name ∧
    "SetHFOV" ∈ methods.map MethodDecl.name ∧
    "SetUpdateRate" ∈ methods.map MethodDecl.name ∧
    "image_pub_" ∈ fields.map FieldDecl.name ∧
    "camera_info_pub_" ∈ fields.map FieldDecl.name := by decide

/-- C8: the three-argument `Load` overload defaults its
`_camera_name_suffix` parameter to the empty string, so a call
omitting the suffix binds the same arguments as one passing `""`
explicitly; the four-argument overload has no defaulted parameter, so
the baseline must be passed explicitly. -/
theorem c8_load_defaults :
    (loadDecl3.params.map ParamDecl.dflt = [none, none, some ""]) ∧
    (loadDecl4.params.map ParamDecl.dflt = [none, none, none, none]) ∧
    loadDecl3 ∈ methods ∧ loadDecl4 ∈ methods ∧
    ∀ (p q : Nat), LoadCall2 p q = LoadCall3 p q "" :=
  ⟨by decide, by decide, by decide, by decide, fun p q => rfl⟩

/-- C9: from any state with no subscriber, `ImageConnect` records in
`was_active_` whether the camera was already active, and the matching
`ImageDisconnect` brings the count back to zero and restores the
camera's activation state to its value before the connect. -/
theorem c9_roundtrip (s : CamState) (h : s.image_connect_count_ = 0) :
    (ImageConnect s).was_active_ = s.sensor.active ∧
    (ImageDisconnect (ImageConnect s)).image_connect_count_ = 0 ∧
    (ImageDisconnect (ImageConnect s)).sensor.active = s.sensor.active := by
  simp [ImageConnect, ImageDisconnect, h]

/-- C9 witness: the round trip from the freshly constructed state with
the concrete sensor restores the activation state. -/
theorem c9_roundtrip_witness :
    (ImageDisconnect (ImageConnect (initState sensor0))).sensor.active =
      (initState sensor0).sensor.active :=
  (c9_roundtrip (initState sensor0) (by decide)).2.2

/-- C10: after `Load` the two world-pointer fields `world_` and the
deprecated `world` are equal, and every operation of the class
preserves their equality. -/
theorem c10_world_alias :
    (∀ (w : Nat) (s : CamState), (Load w s).world_ = (Load w s).world) ∧
    ∀ (e : Event) (s : CamState), s.world_ = s.world →
      (step e s).world_ = (step e s).world := by
  refine ⟨fun w s => rfl, fun e s h => ?_⟩
  cases e with
  | imageConnect => exact h
  | imageDisconnect => exact h
  | setHFOV msg => exact h
  | setUpdateRate msg => exact h
  | load w => rfl
  | loadThread => exact h
  | publishCameraInfo => exact h
  | putCameraData => exact h

/-- C10 witness: after a concrete `Load` and a subsequent
`ImageConnect`, the two world fields are still equal. -/
theorem c10_world_alias_witness :
    (step Event.imageConnect (Load 5 (initState sensor0))).world_ =
      (step Event.imageConnect (Load 5 (initState sensor0))).world :=
  c10_world_alias.2 Event.imageConnect (Load 5 (initState sensor0))
    (by decide)

end UtilRosCam
